import Mathlib

/-!
Verification of the sendtolibrary Blender add-on.

Shallow embedding of the three source files:
  * `backend.py`   — the background worker (`get_args`, `main`);
  * `operators.py` — the UI operator `NODE_OT_send_to_library.execute` and
    the command it builds;
  * `__init__.py`  — the module-level `classes` tuple and its attribute
    resolution against the `operators` module.

Host behaviour (Blender's `bpy` API, the filesystem, `subprocess.run`) is
modelled by oracle records: each host call that can fail is given a Boolean
outcome and an error message, and each host call performed by the code is
recorded as an event in a trace.  Python truthiness of strings is embedded
as inequality with `""`, and `None` values as `Option`.
-/

namespace SendToLibrary

/-! ### Backend data model (src/backend.py) -/

/-- The parsed command-line arguments of the backend (`argparse` result). -/
structure Args where
  source_file : String
  target_file : String
  datablock_type : String
  datablock_name : String
  new_name : String
  description : String
  author : String
  copyright : String
  license : String
  append_only : Bool
deriving DecidableEq, Repr

/-- Asset metadata fields (`asset.asset_data` in Blender). -/
structure AssetMeta where
  description : String
  author : String
  copyright : String
  license : String
deriving DecidableEq, Repr

/-- The data owned by an Object datablock (`asset.data`), with its user
count (`asset.data.users`). -/
structure BlockData where
  name : String
  users : Nat
deriving DecidableEq, Repr

/-- A datablock as the backend observes it after the append: its name, its
asset flag, its metadata and (for Objects) its data. -/
structure Datablock where
  name : String
  isAsset : Bool
  meta : AssetMeta
  data : Option BlockData
deriving DecidableEq, Repr

/-- Oracle for the host application and filesystem as seen by the backend:
whether the target file exists, whether each `bpy.ops` call succeeds, the
error messages the host would raise, the contents of the datablock
collections after the append, and `os.path.abspath`. -/
structure Host where
  targetExists : Bool
  openOk : Bool
  openErrMsg : String
  appendOk : Bool
  appendErrMsg : String
  node_groups : List (String × Datablock)
  materials : List (String × Datablock)
  objects : List (String × Datablock)
  previewOk : Bool
  previewErrMsg : String
  saveOk : Bool
  saveErrMsg : String
  abspath : String → String

/-- Events recorded by the backend: each host call it performs, plus its
print statements. -/
inductive Ev where
  | print (s : String)
  | openMainfile (path : String)
  | readFactorySettings
  | append (filepath directory filename : String)
  | rename (oldName newName : String)
  | assetMark (name : String)
  | setMeta (field value : String)
  | copyData (dataName : String)
  | genPreview
  | saveMainfile (path : String)
deriving DecidableEq, Repr

/-- `os.path.join` on two components (separator abstracted as a slash). -/
def joinPath (a b : String) : String := a ++ "/" ++ b

/-- `bpy.data.node_groups.get` / `.materials.get` / `.objects.get`
dispatched on the `datablock_type` string exactly as in `main`
(backend.py lines 78-84); any other type yields `None`. -/
def findAsset (h : Host) (ty name : String) : Option Datablock :=
  if ty = "NodeTree" then h.node_groups.lookup name
  else if ty = "Material" then h.materials.lookup name
  else if ty = "Object" then h.objects.lookup name
  else none

/-- The four startup prints of `main` (backend.py lines 30-33). -/
def startPrints (args : Args) : List Ev :=
  [Ev.print "Starting Send-To-Library Operation",
   Ev.print ("Source: " ++ args.source_file),
   Ev.print ("Target: " ++ args.target_file),
   Ev.print ("Asset: " ++ args.datablock_name ++ " (" ++ args.datablock_type ++ ")")]

/-- The append-only branch of `main` (backend.py lines 87-117): print,
and for Objects whose data is shared (`asset.data and asset.data.users > 1`)
replace the data by a single-user copy. -/
def appendOnlyStep (args : Args) (a : Datablock) : List Ev × Datablock :=
  let t0 := [Ev.print ("Appended \x27" ++ a.name ++ "\x27. Skipping asset marking (Append Only mode).")]
  if args.datablock_type = "Object" then
    match a.data with
    | some d =>
      if d.users > 1 then
        (t0 ++ [Ev.print ("Making data \x27" ++ d.name ++ "\x27 single user..."), Ev.copyData d.name],
         { a with data := some { d with users := 1 } })
      else (t0, a)
    | none => (t0, a)
  else (t0, a)

/-- The metadata-setting block of `main` (backend.py lines 131-142): each
field is written exactly when the corresponding argument string is truthy
(non-empty). -/
def setMetaStep (args : Args) (m : AssetMeta) : List Ev × AssetMeta :=
  let s1 : List Ev × AssetMeta :=
    if args.description ≠ "" then
      ([Ev.setMeta "description" args.description, Ev.print ("Set description: " ++ args.description)],
       { m with description := args.description })
    else ([], m)
  let s2 : List Ev × AssetMeta :=
    if args.author ≠ "" then
      (s1.1 ++ [Ev.setMeta "author" args.author, Ev.print ("Set author: " ++ args.author)],
       { s1.2 with author := args.author })
    else s1
  let s3 : List Ev × AssetMeta :=
    if args.copyright ≠ "" then
      (s2.1 ++ [Ev.setMeta "copyright" args.copyright, Ev.print ("Set copyright: " ++ args.copyright)],
       { s2.2 with copyright := args.copyright })
    else s2
  if args.license ≠ "" then
    (s3.1 ++ [Ev.setMeta "license" args.license, Ev.print ("Set license: " ++ args.license)],
     { s3.2 with license := args.license })
  else s3

/-- The mark-as-asset branch of `main` (backend.py lines 119-150): rename
when `new_name` is truthy and differs, `asset_mark`, metadata, preview. -/
def markAssetStep (h : Host) (args : Args) (a : Datablock) : List Ev × Datablock :=
  let t0 := [Ev.print ("Marking \x27" ++ a.name ++ "\x27 as asset...")]
  let r1 : List Ev × Datablock :=
    if args.new_name ≠ "" ∧ args.new_name ≠ a.name then
      (t0 ++ [Ev.print ("Renaming asset from \x27" ++ a.name ++ "\x27 to \x27" ++ args.new_name ++ "\x27"),
              Ev.rename a.name args.new_name],
       { a with name := args.new_name })
    else (t0, a)
  let a2 : Datablock := { r1.2 with isAsset := true }
  let tm := r1.1 ++ [Ev.assetMark r1.2.name]
  let sm := setMetaStep args a2.meta
  let a3 : Datablock := { a2 with meta := sm.2 }
  let tprev := [Ev.genPreview] ++
    (if h.previewOk then [] else [Ev.print ("Preview generation warning: " ++ h.previewErrMsg)])
  (tm ++ sm.1 ++ tprev, a3)

/-- Outcome of one backend run: the trace of host calls and prints, the
process exit code, and the final state of the appended datablock when one
was found. -/
structure MainResult where
  trace : List Ev
  exitCode : Nat
  finalAsset : Option Datablock
deriving DecidableEq, Repr

/-- The backend `main` (backend.py lines 27-161), as a function of the
host oracle and the parsed arguments.  Exit code 1 stands for `sys.exit(1)`
and 0 for falling off the end of `main`. -/
def main (h : Host) (args : Args) : MainResult :=
  let t0 := startPrints args
  if h.targetExists ∧ ¬ h.openOk then
    ⟨t0 ++ [Ev.openMainfile args.target_file,
            Ev.print ("Error opening file: " ++ h.openErrMsg)], 1, none⟩
  else
    let t1 := t0 ++ (if h.targetExists then [Ev.openMainfile args.target_file]
                     else [Ev.readFactorySettings])
    let source_file := h.abspath args.source_file
    let source_dir := joinPath source_file args.datablock_type
    let appendEv := Ev.append (joinPath source_dir args.datablock_name) source_dir args.datablock_name
    if ¬ h.appendOk then
      ⟨t1 ++ [appendEv, Ev.print ("Failed to append: " ++ h.appendErrMsg)], 1, none⟩
    else
      let t2 := t1 ++ [appendEv]
      match findAsset h args.datablock_type args.datablock_name with
      | none =>
        ⟨t2 ++ [Ev.print ("Error: Could not find appended asset \x27" ++ args.datablock_name ++
                          "\x27 in target file.")], 1, none⟩
      | some a =>
        let s := if args.append_only then appendOnlyStep args a else markAssetStep h args a
        let t3 := t2 ++ s.1
        if h.saveOk then
          ⟨t3 ++ [Ev.saveMainfile args.target_file,
                  Ev.print ("Successfully saved to " ++ args.target_file)], 0, some s.2⟩
        else
          ⟨t3 ++ [Ev.saveMainfile args.target_file,
                  Ev.print ("Error saving file: " ++ h.saveErrMsg)], 1, some s.2⟩

/-! ### Backend argument parsing (src/backend.py, get_args) -/

/-- The Python list slice `argv[argv.index("--") + 1:]` when `"--"` is in
`argv`, and `[]` otherwise (backend.py lines 7-11). -/
def afterSep (argv : List String) : List String :=
  if "--" ∈ argv then (argv.dropWhile (fun s => s != "--")).drop 1 else []

/-- Partially parsed arguments: `none` marks a required or optional flag not
yet seen on the command line. -/
structure RawArgs where
  source_file : Option String
  target_file : Option String
  datablock_type : Option String
  datablock_name : Option String
  new_name : Option String
  description : Option String
  author : Option String
  copyright : Option String
  license : Option String
  append_only : Bool
deriving DecidableEq, Repr

/-- Initial parse state: nothing seen, `append_only` false (its
`store_true` default). -/
def initRaw : RawArgs := ⟨none, none, none, none, none, none, none, none, none, false⟩

/-- The nine value-taking option strings registered on the parser
(backend.py lines 14-22). -/
def valueOpts : List String :=
  ["--source_file", "--target_file", "--datablock_type", "--datablock_name",
   "--new_name", "--description", "--author", "--copyright", "--license"]

/-- Store a value under its option name. -/
def setField (st : RawArgs) (name v : String) : RawArgs :=
  if name = "--source_file" then { st with source_file := some v }
  else if name = "--target_file" then { st with target_file := some v }
  else if name = "--datablock_type" then { st with datablock_type := some v }
  else if name = "--datablock_name" then { st with datablock_name := some v }
  else if name = "--new_name" then { st with new_name := some v }
  else if name = "--description" then { st with description := some v }
  else if name = "--author" then { st with author := some v }
  else if name = "--copyright" then { st with copyright := some v }
  else if name = "--license" then { st with license := some v }
  else st

/-- Whether a token looks like a long option (starts with `--`), the test
`argparse` applies to the would-be value of a value-taking option. -/
def isOptionLike (s : String) : Bool := s.data.take 2 = ['-', '-']

/-- The token loop of `argparse` for this parser, modelled without the
`--name=value` form, prefix abbreviation and the automatic help option,
none of which the repository uses: a known value option consumes the next
token (erroring when none follows or the next token is itself an option),
`--append_only` stores true, and any other token is an unrecognized
argument. -/
def parseTokens : List String → RawArgs → Except String RawArgs
  | [], st => Except.ok st
  | t :: rest, st =>
    if t = "--append_only" then parseTokens rest { st with append_only := true }
    else if t ∈ valueOpts then
      match rest with
      | [] => Except.error ("argument " ++ t ++ ": expected one argument")
      | v :: rest2 =>
        if isOptionLike v then Except.error ("argument " ++ t ++ ": expected one argument")
        else parseTokens rest2 (setField st t v)
    else Except.error ("unrecognized arguments: " ++ t)

/-- End-of-parse check: the five `required=True` options must have been
seen; the four optional strings default to `""`. -/
def finalize (st : RawArgs) : Except String Args :=
  match st.source_file, st.target_file, st.datablock_type, st.datablock_name, st.new_name with
  | some s, some t, some ty, some n, some nn =>
    Except.ok ⟨s, t, ty, n, nn, st.description.getD "", st.author.getD "",
               st.copyright.getD "", st.license.getD "", st.append_only⟩
  | _, _, _, _, _ =>
    Except.error "the following arguments are required: --source_file, --target_file, --datablock_type, --datablock_name, --new_name"

/-- `get_args` (backend.py lines 6-25): slice `sys.argv` after `"--"` and
parse; a parse error stands for `argparse` printing usage and exiting. -/
def get_args (argv : List String) : Except String Args :=
  (parseTokens (afterSep argv) initRaw).bind finalize

/-! ### Operator embedding (src/operators.py, NODE_OT_send_to_library) -/

/-- The operator properties of `NODE_OT_send_to_library` relevant to
`execute` (`self.…`). -/
structure OpProps where
  filepath : String
  datablock_name : String
  datablock_type : String
  new_name : String
  description : String
  author : String
  copyright : String
  license : String
  append_only : Bool
  save_current : Bool
deriving DecidableEq, Repr

/-- The Blender state `execute` reads: `bpy.data.filepath`,
`bpy.data.is_dirty`, `bpy.app.binary_path` and the backend script path. -/
structure BpyState where
  data_filepath : String
  is_dirty : Bool
  binary_path : String
  backend_script : String
deriving DecidableEq, Repr

/-- Outcome of the `subprocess.run` call: either the process completed
with a return code, or spawning raised an exception with a message. -/
inductive SpawnOutcome where
  | completed (returncode : Int)
  | failed (msg : String)
deriving DecidableEq, Repr

/-- Events recorded by `execute`: `self.report` calls, the save of the
current file, the (single) `subprocess.run` call, and console prints. -/
inductive OpEv where
  | report (level msg : String)
  | saveMainfile
  | runProc (cmd : List String)
  | printMsg (s : String)
deriving DecidableEq, Repr

/-- Operator return values. -/
inductive OpResult where
  | FINISHED
  | CANCELLED
deriving DecidableEq, Repr

/-- `os.path.basename` on a slash-separated path. -/
def basename (p : String) : String := (p.splitOn "/").getLastD p

/-- The command list built in `execute` (operators.py lines 118-136). -/
def buildCmd (st : BpyState) (self : OpProps) : List String :=
  [st.binary_path, "--background", "-noaudio", "--python", st.backend_script, "--",
   "--source_file", st.data_filepath,
   "--target_file", self.filepath,
   "--datablock_type", self.datablock_type,
   "--datablock_name", self.datablock_name,
   "--new_name", self.new_name,
   "--description", self.description,
   "--author", self.author,
   "--copyright", self.copyright,
   "--license", self.license]
  ++ (if self.append_only then ["--append_only"] else [])

/-- `NODE_OT_send_to_library.execute` (operators.py lines 93-177), as a
function of the Blender state, the operator properties and the outcome of
the one `subprocess.run` call.  A `runProc` event records that the call to
`subprocess.run` was made (also when spawning then raises); the call is
blocking, which the sequential model renders by the result being consumed
only after the event. -/
def execute (st : BpyState) (self : OpProps) (spawn : SpawnOutcome) :
    OpResult × List OpEv :=
  if self.filepath = "" then
    (OpResult.CANCELLED, [OpEv.report "ERROR" "No file selected"])
  else if st.data_filepath = "" then
    (OpResult.CANCELLED, [OpEv.report "ERROR" "Current file must be saved before sending assets."])
  else if st.is_dirty ∧ ¬ self.save_current then
    (OpResult.CANCELLED,
     [OpEv.report "ERROR" "Please save your current file first. The background process needs the latest changes on disk."])
  else
    let tSave := if st.is_dirty then [OpEv.saveMainfile] else []
    let cmd := buildCmd st self
    let tPre := tSave ++
      [OpEv.printMsg ("Executing: " ++ String.intercalate " " cmd),
       OpEv.report "INFO" ("Sending " ++ self.datablock_name ++ " to library...")]
    match spawn with
    | SpawnOutcome.completed rc =>
      if rc = 0 then
        (OpResult.FINISHED,
         tPre ++ [OpEv.runProc cmd,
                  OpEv.report "INFO" ("Success! Asset saved to " ++ basename self.filepath)])
      else
        (OpResult.CANCELLED,
         tPre ++ [OpEv.runProc cmd,
                  OpEv.report "ERROR" "Failed to send asset. Check system console for details."])
    | SpawnOutcome.failed m =>
      (OpResult.CANCELLED,
       tPre ++ [OpEv.runProc cmd, OpEv.report "ERROR" ("System error: " ++ m)])

/-! ### Package import (src/__init__.py versus src/operators.py) -/

/-- The top-level names actually defined by the module `operators.py`
(its imports and its own defs and classes, lines 1-283). -/
def operatorsModuleAttrs : List String :=
  ["bpy", "os", "subprocess", "shlex",
   "StringProperty", "EnumProperty", "BoolProperty", "ExportHelper",
   "get_backend_script_path",
   "NODE_OT_send_to_library",
   "NODE_OT_select_library_item",
   "draw_library_items",
   "NODE_MT_send_node_to_library",
   "NODE_MT_send_material_to_library",
   "draw_node_context_menu",
   "draw_material_context_menu",
   "OBJECT_MT_send_to_library",
   "draw_object_context_menu"]

/-- The attribute names the `classes` tuple of `__init__.py` resolves on
the `operators` module, in source order (lines 34-44). -/
def initClassesRefs : List String :=
  ["NODE_OT_send_to_library",
   "NODE_OT_select_library_item",
   "NODE_MT_send_node_to_library",
   "NODE_MT_send_material_to_library",
   "OBJECT_MT_send_to_library",
   "OUTLINER_MT_send_nodetree_to_library",
   "OUTLINER_MT_send_material_to_library",
   "OUTLINER_MT_send_object_to_library",
   "OUTLINER_MT_send_collection_to_library"]

/-- Python attribute lookup on a module: `AttributeError` when the name is
not among the module's attributes. -/
def getattrModule (attrs : List String) (n : String) : Except String Unit :=
  if n ∈ attrs then Except.ok () else Except.error ("AttributeError: " ++ n)

/-- Evaluating the `classes` tuple at import time of the package: each
name is resolved on `operators` in order, stopping at the first
`AttributeError`.  `register()` is only reachable when this succeeds. -/
def importPackage : Except String Unit :=
  initClassesRefs.foldlM (fun _ n => getattrModule operatorsModuleAttrs n) ()

/-! ### Derived notions used by the verification -/

/-- The key host operations of a backend run: everything except prints and
the preview generation. -/
def isKeyEv : Ev → Bool
  | Ev.print _ => false
  | Ev.genPreview => false
  | _ => true

/-- Restriction of a backend trace to its key host operations. -/
def keyEvents (t : List Ev) : List Ev := t.filter isKeyEv

/-- The append event `main` performs, with the source path made absolute
(backend.py lines 52-67). -/
def appendEvOf (h : Host) (args : Args) : Ev :=
  Ev.append (joinPath (joinPath (h.abspath args.source_file) args.datablock_type) args.datablock_name)
            (joinPath (h.abspath args.source_file) args.datablock_type)
            args.datablock_name

/-- The metadata events the backend emits for a given argument set: one
per non-empty metadata argument, in source order. -/
def metaEvs (args : Args) : List Ev :=
  (if args.description ≠ "" then [Ev.setMeta "description" args.description] else [])
  ++ (if args.author ≠ "" then [Ev.setMeta "author" args.author] else [])
  ++ (if args.copyright ≠ "" then [Ev.setMeta "copyright" args.copyright] else [])
  ++ (if args.license ≠ "" then [Ev.setMeta "license" args.license] else [])

/-- The condition under which `main` calls `sys.exit(1)`: open of an
existing target fails, the append fails, the datablock is not found, or
the save fails. -/
def backendFails (h : Host) (args : Args) : Bool :=
  (h.targetExists && !h.openOk) || !h.appendOk
    || (findAsset h args.datablock_type args.datablock_name).isNone || !h.saveOk

/-- The four error strings `main` can print before exiting with code 1. -/
def errorPrints (h : Host) (args : Args) : List Ev :=
  [Ev.print ("Error opening file: " ++ h.openErrMsg),
   Ev.print ("Failed to append: " ++ h.appendErrMsg),
   Ev.print ("Error: Could not find appended asset \x27" ++ args.datablock_name ++ "\x27 in target file."),
   Ev.print ("Error saving file: " ++ h.saveErrMsg)]

/-- Key-event sequence claim C1 asserts, written from the claim text: open
(or factory start), append, a rename exactly when the requested new name
DIFFERS from the found name, asset mark, metadata writes, save.  This
definition follows the spec words, to be compared with what `main` does. -/
def c1ClaimedTrace (h : Host) (args : Args) (a : Datablock) : List Ev :=
  (if h.targetExists then [Ev.openMainfile args.target_file] else [Ev.readFactorySettings])
  ++ [appendEvOf h args]
  ++ (if args.new_name ≠ a.name then [Ev.rename a.name args.new_name] else [])
  ++ [Ev.assetMark (if args.new_name ≠ a.name then args.new_name else a.name)]
  ++ metaEvs args
  ++ [Ev.saveMainfile args.target_file]

/-- Key-event sequence the code actually performs in the non-append-only
success path: as `c1ClaimedTrace`, except that the rename additionally
requires the requested new name to be non-empty (Python truthiness of
`args.new_name` in `if args.new_name and args.new_name != asset.name`). -/
def c1CodeTrace (h : Host) (args : Args) (a : Datablock) : List Ev :=
  (if h.targetExists then [Ev.openMainfile args.target_file] else [Ev.readFactorySettings])
  ++ [appendEvOf h args]
  ++ (if args.new_name ≠ "" ∧ args.new_name ≠ a.name then [Ev.rename a.name args.new_name] else [])
  ++ [Ev.assetMark (if args.new_name ≠ "" ∧ args.new_name ≠ a.name then args.new_name else a.name)]
  ++ metaEvs args
  ++ [Ev.saveMainfile args.target_file]

/-- Number of `subprocess.run` calls recorded in an operator trace. -/
def countRun (t : List OpEv) : Nat :=
  t.countP (fun e => match e with | OpEv.runProc _ => true | _ => false)

/-! ### Concrete inputs used to instantiate the theorems -/

/-- A node group datablock present in the target after a successful append. -/
def egAsset : Datablock := ⟨"NG", false, ⟨"od", "oa", "oc", "ol"⟩, none⟩

/-- An all-successful host whose target file exists and holds `egAsset`
after the append. -/
def egHost : Host :=
  ⟨true, true, "eopen", true, "eappend", [("NG", egAsset)], [], [], true, "eprev", true, "esave",
   fun s => "/abs/" ++ s⟩

/-- A plain successful argument set requesting the new name "NG2". -/
def egArgs : Args :=
  ⟨"src.blend", "lib.blend", "NodeTree", "NG", "NG2", "d", "a", "c", "l", false⟩

/-- The same invocation with an empty requested new name: the input on
which claim C1 as stated fails. -/
def cexArgs : Args :=
  ⟨"src.blend", "lib.blend", "NodeTree", "NG", "", "", "", "", "", false⟩

/-- An append-only invocation for an Object whose data has two users. -/
def egObjData : BlockData := ⟨"Mesh", 2⟩

/-- The appended object datablock with shared data. -/
def egObj : Datablock := ⟨"Cube", false, ⟨"", "", "", ""⟩, some egObjData⟩

/-- Host for the append-only Object scenario. -/
def egObjHost : Host :=
  ⟨false, true, "eopen", true, "eappend", [], [], [("Cube", egObj)], true, "eprev", true, "esave",
   fun s => "/abs/" ++ s⟩

/-- Arguments for the append-only Object scenario. -/
def egObjArgs : Args :=
  ⟨"src.blend", "lib.blend", "Object", "Cube", "Cube2", "d", "", "", "", true⟩

/-- The successful host with a failing save, for exercising the failure
exit path. -/
def egFailHost : Host := { egHost with saveOk := false }

/-- A clean saved Blender state as `execute` sees it. -/
def egSt : BpyState := ⟨"/home/u/scene.blend", false, "/opt/blender", "/addon/backend.py"⟩

/-- The same state with unsaved changes. -/
def egStDirty : BpyState := ⟨"/home/u/scene.blend", true, "/opt/blender", "/addon/backend.py"⟩

/-- Operator properties for a node-group export. -/
def egSelf : OpProps :=
  ⟨"/lib/lib.blend", "NG", "NodeTree", "NG2", "d", "a", "c", "l", false, false⟩

/-- The same properties with save-current enabled. -/
def egSelfSave : OpProps :=
  ⟨"/lib/lib.blend", "NG", "NodeTree", "NG2", "d", "a", "c", "l", false, true⟩

/-! ### Helper lemmas -/

theorem afterSep_cons (rest : List String) : afterSep ("--" :: rest) = rest := by
  simp [afterSep]

theorem setMetaStep_fields (args : Args) (m : AssetMeta) :
    (setMetaStep args m).2 =
      ⟨if args.description ≠ "" then args.description else m.description,
       if args.author ≠ "" then args.author else m.author,
       if args.copyright ≠ "" then args.copyright else m.copyright,
       if args.license ≠ "" then args.license else m.license⟩ := by
  simp only [setMetaStep]
  split_ifs <;> rfl

theorem setMetaStep_mem (args : Args) (m : AssetMeta) :
    ((Ev.setMeta "description" args.description ∈ (setMetaStep args m).1) ↔ args.description ≠ "") ∧
    ((Ev.setMeta "author" args.author ∈ (setMetaStep args m).1) ↔ args.author ≠ "") ∧
    ((Ev.setMeta "copyright" args.copyright ∈ (setMetaStep args m).1) ↔ args.copyright ≠ "") ∧
    ((Ev.setMeta "license" args.license ∈ (setMetaStep args m).1) ↔ args.license ≠ "") := by
  simp only [setMetaStep]
  split_ifs <;> simp_all

theorem filter_key_setMetaStep (args : Args) (m : AssetMeta) :
    List.filter isKeyEv (setMetaStep args m).1 = metaEvs args := by
  simp only [setMetaStep, metaEvs]
  split_ifs <;> simp [isKeyEv]

theorem markAssetStep_final (h : Host) (args : Args) (a : Datablock) :
    (markAssetStep h args a).2 =
      { name := if args.new_name ≠ "" ∧ args.new_name ≠ a.name then args.new_name else a.name,
        isAsset := true,
        meta := (setMetaStep args a.meta).2,
        data := a.data } := by
  simp only [markAssetStep]
  split_ifs <;> rfl

theorem filter_key_markAssetStep (h : Host) (args : Args) (a : Datablock) :
    List.filter isKeyEv (markAssetStep h args a).1 =
      (if args.new_name ≠ "" ∧ args.new_name ≠ a.name then [Ev.rename a.name args.new_name] else [])
      ++ [Ev.assetMark (if args.new_name ≠ "" ∧ args.new_name ≠ a.name then args.new_name else a.name)]
      ++ metaEvs args := by
  simp only [markAssetStep]
  split_ifs with hr <;> by_cases hp : h.previewOk <;>
    simp [hp, isKeyEv, filter_key_setMetaStep]

theorem markAssetStep_mem_meta (h : Host) (args : Args) (a : Datablock) :
    ((Ev.setMeta "description" args.description ∈ (markAssetStep h args a).1) ↔ args.description ≠ "") ∧
    ((Ev.setMeta "author" args.author ∈ (markAssetStep h args a).1) ↔ args.author ≠ "") ∧
    ((Ev.setMeta "copyright" args.copyright ∈ (markAssetStep h args a).1) ↔ args.copyright ≠ "") ∧
    ((Ev.setMeta "license" args.license ∈ (markAssetStep h args a).1) ↔ args.license ≠ "") := by
  have hs := setMetaStep_mem args a.meta
  simp only [markAssetStep]
  split_ifs <;> by_cases hp : h.previewOk <;> simp_all

theorem appendOnlyStep_no_mark (args : Args) (a : Datablock) :
    (∀ n, Ev.assetMark n ∉ (appendOnlyStep args a).1) ∧
    (∀ f v, Ev.setMeta f v ∉ (appendOnlyStep args a).1) ∧
    (∀ o n, Ev.rename o n ∉ (appendOnlyStep args a).1) := by
  by_cases hty : args.datablock_type = "Object"
  · rcases hdd : a.data with _ | d
    · simp [appendOnlyStep, hty, hdd]
    · by_cases hu : d.users > 1 <;> simp [appendOnlyStep, hty, hdd, hu]
  · simp [appendOnlyStep, hty]

theorem appendOnlyStep_preserves (args : Args) (a : Datablock) :
    (appendOnlyStep args a).2.name = a.name ∧ (appendOnlyStep args a).2.isAsset = a.isAsset := by
  by_cases hty : args.datablock_type = "Object"
  · rcases hdd : a.data with _ | d
    · simp [appendOnlyStep, hty, hdd]
    · by_cases hu : d.users > 1 <;> simp [appendOnlyStep, hty, hdd, hu]
  · simp [appendOnlyStep, hty]

theorem appendOnlyStep_object (args : Args) (a : Datablock) (d : BlockData)
    (hty : args.datablock_type = "Object") (hd : a.data = some d) (hu : d.users > 1) :
    Ev.copyData d.name ∈ (appendOnlyStep args a).1 ∧
    (appendOnlyStep args a).2.data = some { d with users := 1 } := by
  simp [appendOnlyStep, hty, hd, hu]

theorem main_success_shape (h : Host) (args : Args) (a : Datablock)
    (hopen : h.targetExists = true → h.openOk = true)
    (happ : h.appendOk = true)
    (hfind : findAsset h args.datablock_type args.datablock_name = some a) :
    main h args =
      ⟨startPrints args
        ++ (if h.targetExists then [Ev.openMainfile args.target_file] else [Ev.readFactorySettings])
        ++ [appendEvOf h args]
        ++ (if args.append_only then appendOnlyStep args a else markAssetStep h args a).1
        ++ [Ev.saveMainfile args.target_file,
            Ev.print (if h.saveOk then "Successfully saved to " ++ args.target_file
                      else "Error saving file: " ++ h.saveErrMsg)],
       if h.saveOk then 0 else 1,
       some (if args.append_only then appendOnlyStep args a else markAssetStep h args a).2⟩ := by
  have hc : ¬ (h.targetExists ∧ ¬ h.openOk) := fun hc => hc.2 (hopen hc.1)
  have ha : ¬ ¬ h.appendOk = true := by simp [happ]
  simp only [main, hfind]
  rw [if_neg hc, if_neg ha]
  by_cases hs : h.saveOk <;> by_cases hao : args.append_only <;>
    simp [hs, hao, appendEvOf, joinPath]

/-! ### Claim theorems -/

/-- C2: importing the add-on package fails: evaluating the `classes` tuple
of `__init__.py` resolves `operators.OUTLINER_MT_send_nodetree_to_library`,
which `operators.py` does not define, so the import raises
`AttributeError` (at the first of the four missing OUTLINER names) and
`register()` is never reachable; the other three OUTLINER names and the
menu hook target `draw_outliner_context_menu` are missing as well. -/
theorem c2_import_fails :
    importPackage = Except.error "AttributeError: OUTLINER_MT_send_nodetree_to_library" ∧
    "OUTLINER_MT_send_nodetree_to_library" ∉ operatorsModuleAttrs ∧
    "OUTLINER_MT_send_material_to_library" ∉ operatorsModuleAttrs ∧
    "OUTLINER_MT_send_object_to_library" ∉ operatorsModuleAttrs ∧
    "OUTLINER_MT_send_collection_to_library" ∉ operatorsModuleAttrs ∧
    "draw_outliner_context_menu" ∉ operatorsModuleAttrs :=
  ⟨rfl, by decide, by decide, by decide, by decide, by decide⟩

/-- C4: with `--append_only` set and the appended datablock found, the
backend emits no asset-mark, no metadata write and no rename; the
datablock keeps its name and asset flag; and when the type is `Object` and
the object's data is shared (`users > 1`), the data is replaced by a
single-user copy. -/
theorem c4_append_only_mode (h : Host) (args : Args) (a : Datablock)
    (hao : args.append_only = true)
    (hopen : h.targetExists = true → h.openOk = true)
    (happ : h.appendOk = true)
    (hfind : findAsset h args.datablock_type args.datablock_name = some a) :
    (∀ n, Ev.assetMark n ∉ (main h args).trace) ∧
    (∀ f v, Ev.setMeta f v ∉ (main h args).trace) ∧
    (∀ o n, Ev.rename o n ∉ (main h args).trace) ∧
    ∃ a2, (main h args).finalAsset = some a2 ∧ a2.name = a.name ∧ a2.isAsset = a.isAsset ∧
      (args.datablock_type = "Object" → ∀ d, a.data = some d → d.users > 1 →
        Ev.copyData d.name ∈ (main h args).trace ∧ a2.data = some { d with users := 1 }) := by
  have hm := main_success_shape h args a hopen happ hfind
  rw [hm]
  simp only [hao, if_true]
  refine ⟨?_, ?_, ?_, ?_⟩
  · intro n
    have h1 := (appendOnlyStep_no_mark args a).1 n
    by_cases ht : h.targetExists <;> by_cases hsv : h.saveOk <;>
      simp [startPrints, appendEvOf, ht, hsv, h1]
  · intro f v
    have h1 := (appendOnlyStep_no_mark args a).2.1 f v
    by_cases ht : h.targetExists <;> by_cases hsv : h.saveOk <;>
      simp [startPrints, appendEvOf, ht, hsv, h1]
  · intro o n
    have h1 := (appendOnlyStep_no_mark args a).2.2 o n
    by_cases ht : h.targetExists <;> by_cases hsv : h.saveOk <;>
      simp [startPrints, appendEvOf, ht, hsv, h1]
  · refine ⟨(appendOnlyStep args a).2, rfl, (appendOnlyStep_preserves args a).1,
      (appendOnlyStep_preserves args a).2, ?_⟩
    intro hty d hd hu
    have ho := appendOnlyStep_object args a d hty hd hu
    exact ⟨by simp [ho.1], ho.2⟩

/-- C4 witness: on the concrete append-only Object invocation, no asset
mark is emitted and the shared mesh data is copied to a single user. -/
theorem c4_append_only_mode_witness :
    Ev.assetMark "Cube2" ∉ (main egObjHost egObjArgs).trace ∧
    Ev.copyData "Mesh" ∈ (main egObjHost egObjArgs).trace := by
  have h := c4_append_only_mode egObjHost egObjArgs egObj rfl (by decide) rfl (by decide)
  obtain ⟨a2, _, _, _, hobj⟩ := h.2.2.2
  exact ⟨h.1 "Cube2", (hobj rfl egObjData rfl (by decide)).1⟩

/-- C5: once `execute` reaches the `subprocess.run` call, it returns
FINISHED with the success INFO report exactly when the process exits with
return code 0; any non-zero return code and any spawning exception yield
CANCELLED with an ERROR report. -/
theorem c5_result_reporting (st : BpyState) (self : OpProps) (spawn : SpawnOutcome)
    (h1 : ¬ self.filepath = "") (h2 : ¬ st.data_filepath = "")
    (h3 : st.is_dirty = true → self.save_current = true) :
    (((execute st self spawn).1 = OpResult.FINISHED ∧
      OpEv.report "INFO" ("Success! Asset saved to " ++ basename self.filepath) ∈ (execute st self spawn).2)
     ↔ spawn = SpawnOutcome.completed 0) ∧
    (∀ rc : Int, spawn = SpawnOutcome.completed rc → rc ≠ 0 →
      (execute st self spawn).1 = OpResult.CANCELLED ∧
      OpEv.report "ERROR" "Failed to send asset. Check system console for details." ∈ (execute st self spawn).2) ∧
    (∀ m : String, spawn = SpawnOutcome.failed m →
      (execute st self spawn).1 = OpResult.CANCELLED ∧
      OpEv.report "ERROR" ("System error: " ++ m) ∈ (execute st self spawn).2) := by
  have hd : ¬ (st.is_dirty ∧ ¬ self.save_current) := fun hc => hc.2 (h3 hc.1)
  rw [execute, if_neg h1, if_neg h2, if_neg hd]
  cases spawn with
  | completed rc =>
    by_cases hrc : rc = 0
    · subst hrc
      simp
    · simp [hrc]
  | failed m =>
    simp

/-- C5 witness: on the concrete clean state, a zero return code yields
FINISHED and a non-zero one yields CANCELLED. -/
theorem c5_result_reporting_witness :
    (execute egSt egSelf (SpawnOutcome.completed 0)).1 = OpResult.FINISHED ∧
    (execute egSt egSelf (SpawnOutcome.completed 1)).1 = OpResult.CANCELLED := by
  refine ⟨?_, ?_⟩
  · exact ((c5_result_reporting egSt egSelf (SpawnOutcome.completed 0)
      (by decide) (by decide) (by decide)).1.mpr rfl).1
  · exact ((c5_result_reporting egSt egSelf (SpawnOutcome.completed 1)
      (by decide) (by decide) (by decide)).2.1 1 rfl (by decide)).1

/-- C6: the backend's command-line surface: with no `"--"` separator the
argument list is empty and parsing fails on the missing required
arguments; the five required options alone parse with the optional strings
defaulting to `""` and `append_only` to false; all ten options together
parse to the corresponding `Args`; any other token is rejected. -/
theorem c6_cli_surface :
    (∀ argv : List String, "--" ∉ argv →
       get_args argv = Except.error "the following arguments are required: --source_file, --target_file, --datablock_type, --datablock_name, --new_name") ∧
    (∀ s t ty n nn : String,
       isOptionLike s = false → isOptionLike t = false → isOptionLike ty = false →
       isOptionLike n = false → isOptionLike nn = false →
       get_args ["--", "--source_file", s, "--target_file", t, "--datablock_type", ty,
                 "--datablock_name", n, "--new_name", nn] =
         Except.ok ⟨s, t, ty, n, nn, "", "", "", "", false⟩) ∧
    (∀ s t ty n nn d au c l : String,
       isOptionLike s = false → isOptionLike t = false → isOptionLike ty = false →
       isOptionLike n = false → isOptionLike nn = false → isOptionLike d = false →
       isOptionLike au = false → isOptionLike c = false → isOptionLike l = false →
       get_args ["--", "--source_file", s, "--target_file", t, "--datablock_type", ty,
                 "--datablock_name", n, "--new_name", nn, "--description", d, "--author", au,
                 "--copyright", c, "--license", l, "--append_only"] =
         Except.ok ⟨s, t, ty, n, nn, d, au, c, l, true⟩) ∧
    (∀ tok : String, tok ∉ valueOpts → tok ≠ "--append_only" →
       parseTokens [tok] initRaw = Except.error ("unrecognized arguments: " ++ tok)) := by
  refine ⟨?_, ?_, ?_, ?_⟩
  · intro argv h
    have ha : afterSep argv = [] := by simp [afterSep, h]
    rw [get_args, ha]
    rfl
  · intro s t ty n nn hs ht hty hn hnn
    rw [get_args, afterSep_cons]
    simp +decide [parseTokens, valueOpts, setField, hs, ht, hty, hn, hnn, initRaw, finalize]
    rfl
  · intro s t ty n nn d au c l hs ht hty hn hnn hd hau hc hl
    rw [get_args, afterSep_cons]
    simp +decide [parseTokens, valueOpts, setField, hs, ht, hty, hn, hnn, hd, hau, hc, hl,
      initRaw, finalize]
    rfl
  · intro tok h1 h2
    simp [parseTokens, h1, h2]

/-- C6 witness: a concrete invocation without `"--"` fails with the
missing-required-arguments error, and a concrete full invocation parses. -/
theorem c6_cli_surface_witness :
    get_args ["blender", "--background"] = Except.error "the following arguments are required: --source_file, --target_file, --datablock_type, --datablock_name, --new_name" ∧
    get_args ["--", "--source_file", "s.blend", "--target_file", "t.blend", "--datablock_type",
              "NodeTree", "--datablock_name", "NG", "--new_name", "NG2"] =
      Except.ok ⟨"s.blend", "t.blend", "NodeTree", "NG", "NG2", "", "", "", "", false⟩ := by
  refine ⟨?_, ?_⟩
  · exact c6_cli_surface.1 ["blender", "--background"] (by decide)
  · exact c6_cli_surface.2.1 "s.blend" "t.blend" "NodeTree" "NG" "NG2"
      (by decide) (by decide) (by decide) (by decide) (by decide)

/-- C7: for every `execute` that passes validation, exactly one
`subprocess.run` call is recorded (no retry, no second spawn), it runs the
command built from the state and properties, and that command starts the
host in background (headless) mode. -/
theorem c7_single_spawn (st : BpyState) (self : OpProps) (spawn : SpawnOutcome)
    (h1 : ¬ self.filepath = "") (h2 : ¬ st.data_filepath = "")
    (h3 : st.is_dirty = true → self.save_current = true) :
    countRun (execute st self spawn).2 = 1 ∧
    OpEv.runProc (buildCmd st self) ∈ (execute st self spawn).2 ∧
    "--background" ∈ buildCmd st self := by
  have hd : ¬ (st.is_dirty ∧ ¬ self.save_current) := fun hc => hc.2 (h3 hc.1)
  rw [execute, if_neg h1, if_neg h2, if_neg hd]
  refine ⟨?_, ?_, by simp [buildCmd]⟩
  · cases spawn with
    | completed rc =>
      by_cases hrc : rc = 0 <;> by_cases hdy : st.is_dirty <;> simp [hrc, hdy, countRun]
    | failed m =>
      by_cases hdy : st.is_dirty <;> simp [hdy, countRun]
  · cases spawn with
    | completed rc =>
      by_cases hrc : rc = 0 <;> simp [hrc]
    | failed m =>
      simp

/-- C7 witness: the concrete clean-state export records exactly one
subprocess call. -/
theorem c7_single_spawn_witness :
    countRun (execute egSt egSelf (SpawnOutcome.completed 0)).2 = 1 :=
  (c7_single_spawn egSt egSelf (SpawnOutcome.completed 0)
    (by decide) (by decide) (by decide)).1

/-- C8: `execute` cancels with an ERROR report and no subprocess when no
file was selected, when the current file was never saved, or when it is
dirty and `save_current` is off; when it is dirty and `save_current` is
on, it saves the current file first and then spawns exactly once. -/
theorem c8_preconditions (st : BpyState) (self : OpProps) (spawn : SpawnOutcome) :
    (self.filepath = "" →
      (execute st self spawn).1 = OpResult.CANCELLED ∧
      OpEv.report "ERROR" "No file selected" ∈ (execute st self spawn).2 ∧
      countRun (execute st self spawn).2 = 0) ∧
    (¬ self.filepath = "" → st.data_filepath = "" →
      (execute st self spawn).1 = OpResult.CANCELLED ∧
      OpEv.report "ERROR" "Current file must be saved before sending assets." ∈ (execute st self spawn).2 ∧
      countRun (execute st self spawn).2 = 0) ∧
    (¬ self.filepath = "" → ¬ st.data_filepath = "" → st.is_dirty = true → self.save_current = false →
      (execute st self spawn).1 = OpResult.CANCELLED ∧
      OpEv.report "ERROR" "Please save your current file first. The background process needs the latest changes on disk." ∈ (execute st self spawn).2 ∧
      countRun (execute st self spawn).2 = 0) ∧
    (¬ self.filepath = "" → ¬ st.data_filepath = "" → st.is_dirty = true → self.save_current = true →
      ∃ rest, (execute st self spawn).2 = OpEv.saveMainfile :: rest ∧ countRun rest = 1) := by
  refine ⟨?_, ?_, ?_, ?_⟩
  · intro h
    simp [execute, h, countRun]
  · intro h1 h2
    rw [execute, if_neg h1, if_pos h2]
    simp [countRun]
  · intro h1 h2 h3 h4
    have hd : (st.is_dirty ∧ ¬ self.save_current) = True := by
      simp [h3, h4]
    rw [execute, if_neg h1, if_neg h2]
    simp only [hd, if_true]
    simp [countRun]
  · intro h1 h2 h3 h4
    have hd : ¬ (st.is_dirty ∧ ¬ self.save_current) := fun hc => hc.2 h4
    cases spawn with
    | completed rc =>
      by_cases hrc : rc = 0 <;> simp [execute, h1, h2, h3, h4, hd, hrc, countRun]
    | failed m =>
      simp [execute, h1, h2, h3, h4, hd, countRun]

/-- C8 witness: with no selected filepath the concrete call cancels
without spawning; with a dirty file and `save_current` on it saves first
and then spawns once. -/
theorem c8_preconditions_witness :
    (execute egSt ⟨"", "NG", "NodeTree", "NG2", "d", "a", "c", "l", false, false⟩
      (SpawnOutcome.completed 0)).1 = OpResult.CANCELLED ∧
    (∃ rest, (execute egStDirty egSelfSave (SpawnOutcome.completed 0)).2 =
      OpEv.saveMainfile :: rest ∧ countRun rest = 1) := by
  refine ⟨?_, ?_⟩
  · exact ((c8_preconditions egSt ⟨"", "NG", "NodeTree", "NG2", "d", "a", "c", "l", false, false⟩
      (SpawnOutcome.completed 0)).1 rfl).1
  · exact (c8_preconditions egStDirty egSelfSave (SpawnOutcome.completed 0)).2.2.2
      (by decide) (by decide) rfl rfl

/-- C1 counterexample: with the required `--new_name` argument present but
empty and the datablock found under its original name "NG", the claimed
sequence contains a rename (the empty new name differs from the found
name) but the backend performs none, because the code additionally
requires the new name to be truthy. -/
theorem c1_claimed_sequence_fails :
    cexArgs.append_only = false ∧
    (egHost.targetExists = true → egHost.openOk = true) ∧
    egHost.appendOk = true ∧
    findAsset egHost cexArgs.datablock_type cexArgs.datablock_name = some egAsset ∧
    egAsset.name = cexArgs.datablock_name ∧
    keyEvents (main egHost cexArgs).trace ≠ c1ClaimedTrace egHost cexArgs egAsset := by
  refine ⟨rfl, fun _ => rfl, rfl, by decide, rfl, by decide⟩

/-- C1 (amended): for every backend invocation without `--append_only` in
which the appended datablock is found under its original name, the key
host operations are, in order: open the target file (or start from an
empty file when it does not exist), append the named datablock, rename it
to the requested new name when that name is non-empty and differs from the
found name, mark it as an asset, write the supplied (non-empty) metadata
fields, and resave the target file. -/
theorem c1_backend_sequence (h : Host) (args : Args) (a : Datablock)
    (hao : args.append_only = false)
    (hopen : h.targetExists = true → h.openOk = true)
    (happ : h.appendOk = true)
    (hfind : findAsset h args.datablock_type args.datablock_name = some a)
    (_hname : a.name = args.datablock_name) :
    keyEvents (main h args).trace = c1CodeTrace h args a := by
  have hm := main_success_shape h args a hopen happ hfind
  rw [hm]
  simp only [hao, if_false, Bool.false_eq_true]
  by_cases ht : h.targetExists <;>
    simp [c1CodeTrace, keyEvents, startPrints, isKeyEv, appendEvOf, ht,
      filter_key_markAssetStep]

/-- C1 witness: the concrete successful invocation produces exactly the
amended key-event sequence. -/
theorem c1_backend_sequence_witness :
    keyEvents (main egHost egArgs).trace = c1CodeTrace egHost egArgs egAsset :=
  c1_backend_sequence egHost egArgs egAsset rfl (fun _ => rfl) rfl (by decide) rfl

/-- C3: the backend exits with code 1 exactly when one of its four failure
paths is taken (open of an existing target fails, append fails, the
datablock is not found, or the save fails), in which case one of the four
error strings is printed; with no failure it exits with code 0. -/
theorem c3_exit_discipline (h : Host) (args : Args) :
    (main h args).exitCode = (if backendFails h args then 1 else 0) ∧
    (backendFails h args = true → ∃ e ∈ errorPrints h args, e ∈ (main h args).trace) := by
  by_cases ht : h.targetExists <;> by_cases ho : h.openOk <;> by_cases ha : h.appendOk <;>
    rcases hf : findAsset h args.datablock_type args.datablock_name with _ | a <;>
    by_cases hs : h.saveOk <;>
    simp [main, backendFails, errorPrints, startPrints, ht, ho, ha, hf, hs]

/-- C3 witness: on the concrete invocation whose save fails, the backend
exits with code 1 and prints the save-error string; on the all-successful
one it exits 0. -/
theorem c3_exit_discipline_witness :
    backendFails egFailHost egArgs = true ∧
    (main egFailHost egArgs).exitCode = 1 ∧
    (∃ e ∈ errorPrints egFailHost egArgs, e ∈ (main egFailHost egArgs).trace) ∧
    (main egHost egArgs).exitCode = 0 := by
  refine ⟨by decide, ?_, ?_, ?_⟩
  · exact ((c3_exit_discipline egFailHost egArgs).1).trans (by decide)
  · exact (c3_exit_discipline egFailHost egArgs).2 (by decide)
  · exact ((c3_exit_discipline egHost egArgs).1).trans (by decide)

/-- C9: when the backend marks the found datablock as an asset, each of
the four metadata fields is written exactly when the corresponding
argument is non-empty, and for every empty argument the asset's existing
value of that field is left unchanged. -/
theorem c9_metadata_iff (h : Host) (args : Args) (a : Datablock)
    (hao : args.append_only = false)
    (hopen : h.targetExists = true → h.openOk = true)
    (happ : h.appendOk = true)
    (hfind : findAsset h args.datablock_type args.datablock_name = some a) :
    ∃ a2, (main h args).finalAsset = some a2 ∧
      a2.meta.description = (if args.description ≠ "" then args.description else a.meta.description) ∧
      a2.meta.author = (if args.author ≠ "" then args.author else a.meta.author) ∧
      a2.meta.copyright = (if args.copyright ≠ "" then args.copyright else a.meta.copyright) ∧
      a2.meta.license = (if args.license ≠ "" then args.license else a.meta.license) ∧
      ((Ev.setMeta "description" args.description ∈ (main h args).trace) ↔ args.description ≠ "") ∧
      ((Ev.setMeta "author" args.author ∈ (main h args).trace) ↔ args.author ≠ "") ∧
      ((Ev.setMeta "copyright" args.copyright ∈ (main h args).trace) ↔ args.copyright ≠ "") ∧
      ((Ev.setMeta "license" args.license ∈ (main h args).trace) ↔ args.license ≠ "") := by
  have hm := main_success_shape h args a hopen happ hfind
  rw [hm]
  simp only [hao, if_false, Bool.false_eq_true]
  refine ⟨(markAssetStep h args a).2, rfl, ?_, ?_, ?_, ?_, ?_, ?_, ?_, ?_⟩
  · rw [markAssetStep_final, setMetaStep_fields]
  · rw [markAssetStep_final, setMetaStep_fields]
  · rw [markAssetStep_final, setMetaStep_fields]
  · rw [markAssetStep_final, setMetaStep_fields]
  · have := (markAssetStep_mem_meta h args a).1
    by_cases ht : h.targetExists <;> simp [startPrints, appendEvOf, ht, this]
  · have := (markAssetStep_mem_meta h args a).2.1
    by_cases ht : h.targetExists <;> simp [startPrints, appendEvOf, ht, this]
  · have := (markAssetStep_mem_meta h args a).2.2.1
    by_cases ht : h.targetExists <;> simp [startPrints, appendEvOf, ht, this]
  · have := (markAssetStep_mem_meta h args a).2.2.2
    by_cases ht : h.targetExists <;> simp [startPrints, appendEvOf, ht, this]

/-- C9 witness: on the concrete invocation with all metadata supplied, the
description write event is emitted. -/
theorem c9_metadata_iff_witness :
    Ev.setMeta "description" "d" ∈ (main egHost egArgs).trace := by
  obtain ⟨a2, _, _, _, _, _, hd, _, _, _⟩ :=
    c9_metadata_iff egHost egArgs egAsset rfl (fun _ => rfl) rfl (by decide)
  exact hd.mpr (by decide)

/-- C10: the command `execute` builds passes the currently open file's
saved path (`bpy.data.filepath`) as the `--source_file` value, and the
backend's append event reads from that source file converted to an
absolute path. -/
theorem c10_source_path (st : BpyState) (self : OpProps) (h : Host) (args : Args)
    (hopen : h.targetExists = true → h.openOk = true) :
    List.IsInfix ["--source_file", st.data_filepath] (buildCmd st self) ∧
    appendEvOf h args ∈ (main h args).trace := by
  constructor
  · exact ⟨[st.binary_path, "--background", "-noaudio", "--python", st.backend_script, "--"],
      ["--target_file", self.filepath, "--datablock_type", self.datablock_type,
       "--datablock_name", self.datablock_name, "--new_name", self.new_name,
       "--description", self.description, "--author", self.author,
       "--copyright", self.copyright, "--license", self.license]
      ++ (if self.append_only then ["--append_only"] else []), by simp [buildCmd]⟩
  · by_cases ht : h.targetExists
    · have ho := hopen ht
      by_cases ha : h.appendOk
      · rcases hf : findAsset h args.datablock_type args.datablock_name with _ | a
        · simp [main, ht, ho, ha, hf, appendEvOf, joinPath, startPrints]
        · by_cases hs : h.saveOk <;>
            simp [main, ht, ho, ha, hf, hs, appendEvOf, joinPath, startPrints]
      · simp [main, ht, ho, ha, appendEvOf, joinPath, startPrints]
    · by_cases ha : h.appendOk
      · rcases hf : findAsset h args.datablock_type args.datablock_name with _ | a
        · simp [main, ht, ha, hf, appendEvOf, joinPath, startPrints]
        · by_cases hs : h.saveOk <;>
            simp [main, ht, ha, hf, hs, appendEvOf, joinPath, startPrints]
      · simp [main, ht, ha, appendEvOf, joinPath, startPrints]

/-- C10 witness: on the concrete state and invocation, the source-file
pair is an infix of the command and the absolute-path append event is in
the backend trace. -/
theorem c10_source_path_witness :
    List.IsInfix ["--source_file", egSt.data_filepath] (buildCmd egSt egSelf) ∧
    appendEvOf egHost egArgs ∈ (main egHost egArgs).trace :=
  c10_source_path egSt egSelf egHost egArgs (fun _ => rfl)

end SendToLibrary
